import Mathlib

/-!
ptc-print: a shallow embedding of `include/ptc/print.hpp`

The header defines a family of `operator <<` overloads (complex numbers, pairs,
containers, C arrays) and the `Print` functor whose `operator ()` overloads all
end in `print_backend`.

Modelling conventions.

* A `std::string` is a Lean `String`; the C++ `length()` (a count of `char`
  elements, i.e. bytes) is `String.utf8ByteSize`.
* A `std::ostream` is the text inserted so far, plus a count of the `std::flush`
  manipulators applied to it (`OStream`).
* The heterogeneous argument pack `Args...` is a `List Value`; the static type of
  each argument is the constructor of `Value`.
* Template arguments that the code inspects (`T_os`) are explicit parameters.
* The mutex only serialises calls; a single call is modelled sequentially.
-/

namespace ptc

/-! ## Enum classes -/

/-- The enum class `mode { str }` selecting the string-returning overload. -/
inductive mode where
  | str
  deriving DecidableEq

/-- The enum class `ANSI { first, generic }` switching the two `is_escape` tests. -/
inductive ANSI where
  | first
  | generic
  deriving DecidableEq

/-! ## Printable values -/

/-- The argument shapes that the header and its tests print.

* `text`: `std::string`, `std::string_view`, `const char*`, `char[N]`: the types that
  are convertible to `std::string_view` (and are not `std::nullptr_t`);
* `char`: a single `char`;
* `int`: an integer, printed in decimal by the standard inserter;
* `nullptr`: the `std::nullptr_t` value, printed as `nullptr` by the standard inserter;
* `complex`: `std::complex<T_cmplx>` with an integral `T_cmplx`;
* `pair`: `std::pair<T, U>`;
* `container`: a class template `ContainerType<ValueType, Args...>` that is not
  streamable by itself, traversed by a range-based `for`;
* `array`: a C array `T1 (&)[arrSize]` with `T1` different from `char`. -/
inductive Value where
  | text (s : String)
  | char (c : Char)
  | int (n : Int)
  | nullptr
  | complex (re im : Int)
  | pair (first second : Value)
  | container (elems : List Value)
  | array (elems : List Value)

/-! ## Operator `<<` overloads -/

mutual
/-- The characters that `os << v` inserts into the stream.

* `complex`: `os << number.real() << "+" << number.imag() << "j"`;
* `pair`: `os << "[" << p.first << ", " << p.second << "]"`;
* `container`: `os << "["`, the loop with the running `separator`, `os << "]"`;
* `array`: the same, with the loop guarded by `if ( arrSize )`. -/
def render : Value → String
  | .text s => s
  | .char c => String.singleton c
  | .int n => toString n
  | .nullptr => "nullptr"
  | .complex re im => toString re ++ "+" ++ toString im ++ "j"
  | .pair first second => "[" ++ render first ++ ", " ++ render second ++ "]"
  | .container elems => "[" ++ renderLoop "" elems ++ "]"
  | .array elems => "[" ++ (if elems.length ≠ 0 then renderLoop "" elems else "") ++ "]"
/-- The range-based `for` of the container and array overloads: every iteration does
`os << separator; os << elem; separator = ", ";`. The parameter is the current value of
the local variable `separator`, which is `""` on entry. -/
def renderLoop (separator : String) : List Value → String
  | [] => ""
  | elem :: rest => separator ++ render elem ++ renderLoop ", " rest
end

/-! ## Output streams -/

/-- The class of the stream object handed to `print_backend`. -/
inductive StreamClass where
  | ostream
  | ostringstream
  | ofstream
  | fstream
  deriving DecidableEq

/-- The template argument `T_os` of `print_backend`, deduced from the forwarding
reference `T_os&& os`: the class of the stream, and whether the argument was an lvalue,
in which case `T_os` is the lvalue reference type `cls&`. -/
structure StreamType where
  cls : StreamClass
  lvalueRef : Bool
  deriving DecidableEq

/-- The value of `std::is_base_of_v <std::ostringstream, T_os>`. A reference type is not a
class type, so the trait is false whenever `T_os` was deduced as an lvalue reference; of
the classes modelled only `std::ostringstream` itself derives from `std::ostringstream`. -/
def is_base_of_ostringstream (T_os : StreamType) : Bool :=
  match T_os.lvalueRef, T_os.cls with
  | false, .ostringstream => true
  | _, _ => false

/-- An output stream: the characters inserted so far and the number of `std::flush`
manipulators applied. -/
structure OStream where
  str : String
  flushes : Nat
  deriving DecidableEq

/-- A freshly constructed, empty stream (`std::ostringstream oss;`). -/
def OStream.empty : OStream := ⟨"", 0⟩

/-- Insertion of a `std::string` or string literal: `os << s`. -/
def OStream.write (os : OStream) (s : String) : OStream :=
  { os with str := os.str ++ s }

/-- Insertion of an argument through the overload set: `os << v`. -/
def OStream.shl (os : OStream) (v : Value) : OStream :=
  os.write (render v)

/-- The manipulator `os << std::flush`. -/
def OStream.flush (os : OStream) : OStream :=
  { os with flushes := os.flushes + 1 }

/-! ## The `Print` class -/

/-- The data members `end`, `sep` and `flush` of `struct Print`. -/
structure Print where
  end_ : String
  sep : String
  flush : Bool
  deriving DecidableEq

/-- The default constructor `Print(): end( "\n" ), sep( " " ), flush( false )`. -/
def Print.default : Print := ⟨"\n", " ", false⟩

/-- An argument of the templated setters: something assignable to a `std::string`,
either text or a single `char`. -/
inductive Assignable where
  | str (s : String)
  | chr (c : Char)

/-- The assignment `std::string = end_val`. -/
def Assignable.assign : Assignable → String
  | .str s => s
  | .chr c => String.singleton c

/-- The setter `setEnd`: `end = end_val`. -/
def Print.setEnd (p : Print) (end_val : Assignable) : Print :=
  { p with end_ := end_val.assign }

/-- The setter `setSep`: `sep = sep_val`. -/
def Print.setSep (p : Print) (sep_val : Assignable) : Print :=
  { p with sep := sep_val.assign }

/-- The setter `setFlush`: `flush = flush_val`. -/
def Print.setFlush (p : Print) (flush_val : Bool) : Print :=
  { p with flush := flush_val }

/-- The getter `getEnd`. -/
def Print.getEnd (p : Print) : String := p.end_

/-- The getter `getSep`. -/
def Print.getSep (p : Print) : String := p.sep

/-- The getter `getFlush`. -/
def Print.getFlush (p : Print) : Bool := p.flush

/-- The escape control character `"\033"`. -/
def ESC : Char := Char.ofNat 27

/-- The constant `reset_ANSI = "\033[0m"`. -/
def reset_ANSI : String := "\x1B[0m"

/-- The test `! std::string_view( str ).rfind( "\033", 0 )`: `rfind` with position `0` can
only match at index `0`, so it yields `0` when `str` starts with the escape character and
`npos` otherwise; the negation is true exactly for `0`. -/
def rfind_escape_at_0 (str : String) : Bool :=
  match str.data with
  | c :: _ => c == ESC
  | [] => false

/-- The test `std::string_view( str ).find( "\033" ) != std::string_view::npos`. -/
def find_escape (str : String) : Bool :=
  str.data.contains ESC

/-- The method `is_escape`. The body under `if constexpr` is only compiled for a type that is
convertible to `std::string_view` and is not `std::nullptr_t`, that is for `text`; every
other type reaches `return false`. -/
def is_escape (str : Value) (flag : ANSI) : Bool :=
  match str with
  | .text s =>
    match flag with
    | .first => rfind_escape_at_0 s && decide (s.utf8ByteSize < 7)
    | .generic => find_escape s
  | _ => false

/-- The method `is_null_str`: for a type convertible to `std::string_view` the result is
`str == null_str <T>`, a comparison with the empty string; every other type reaches
`return false`. For `std::nullptr_t` the comparison `nullptr == std::string` has no viable
`operator ==` in C++17, so a call with `nullptr` first and further arguments is ill-formed
there; where the call is well-formed (C++23, the conversion of `std::nullptr_t` to
`std::string_view` being deleted) the method reaches `return false`, which is the value
taken here. -/
def is_null_str (str : Value) : Bool :=
  match str with
  | .text s => s == ""
  | _ => false

/-- The method `print_backend( os, first, args... )`.

1. `os << first`;
2. when `sizeof...( args ) > 0`: the fold `( ( os << args << getSep() ), ...)` if
   `is_null_str( first ) || is_escape( first, ANSI::first )`, otherwise the fold
   `( ( os << getSep() << args ), ...)`;
3. `os << getEnd()`;
4. `os << reset_ANSI` if `is_escape( ·, ANSI::generic )` holds of `first` or of one of `args`;
5. `os << std::flush` if `getFlush() && ! std::is_base_of_v <std::ostringstream, T_os>`. -/
def Print.print_backend (p : Print) (T_os : StreamType) (os : OStream) (first : Value)
    (args : List Value) : OStream :=
  let os := os.shl first
  let os :=
    if args.length > 0 then
      if is_null_str first || is_escape first ANSI.first then
        args.foldl (fun os arg => (os.shl arg).write p.getSep) os
      else
        args.foldl (fun os arg => (os.write p.getSep).shl arg) os
    else os
  let os := os.write p.getEnd
  let os :=
    if args.length > 0 then
      if is_escape first ANSI.generic || args.any (fun arg => is_escape arg ANSI.generic) then
        os.write reset_ANSI
      else os
    else
      if is_escape first ANSI.generic then os.write reset_ANSI else os
  if p.getFlush && !is_base_of_ostringstream T_os then os.flush else os

/-- The deduced `T_os` for an lvalue of class `std::ostream`, such as `std::cout`. -/
def StreamType.ostreamRef : StreamType := ⟨.ostream, true⟩

/-- The deduced `T_os` for the local `std::ostringstream oss` of the string overload. -/
def StreamType.ostringstreamRef : StreamType := ⟨.ostringstream, true⟩

/-- The general `operator()( T&& first, Args&&... args )` when `T` is a stream type: the
call `print_backend( first, args... )`, which needs at least one value after the stream. -/
def Print.call_os (p : Print) (T : StreamType) (first : OStream) (v : Value)
    (vs : List Value) : OStream :=
  p.print_backend T first v vs

/-- The general `operator()( T&& first, Args&&... args )` when `T` is not a stream type:
the call `print_backend( std::cout, first, args... )`. The parameter `cout` is the state
of `std::cout`, the result its new state. -/
def Print.call (p : Print) (cout : OStream) (first : Value) (args : List Value) : OStream :=
  p.print_backend StreamType.ostreamRef cout first args

/-- The string overload `operator()( mode&& first, Args&&... args )`: with at least one
argument the values are printed into a fresh `std::ostringstream` whose `str()` is
returned; otherwise control reaches `return ""`. -/
def Print.call_str (p : Print) (first : mode) (args : List Value) : String :=
  match args with
  | v :: vs =>
    match first with
    | .str => (p.print_backend StreamType.ostringstreamRef OStream.empty v vs).str
  | [] => ""

/-- The no-argument overload `operator()( std::ostream& os = std::cout )`:
`os << getEnd(); if ( getFlush() ) os << std::flush;`. -/
def Print.call_noargs (p : Print) (os : OStream) : OStream :=
  let os := os.write p.getEnd
  if p.getFlush then os.flush else os

/-! ## The general call operator and the two streams of a program -/

/-- The streams a call can write to: the global `std::cout` and a stream object of the
caller that is distinct from it. -/
structure World where
  cout : OStream
  sink : OStream
  deriving DecidableEq

/-- The first argument `T&& first` of the general `operator()`: either the stream object of
the caller, with the deduced type `T` derived from `std::ostream`, or an ordinary value. -/
inductive FirstArg where
  | stream (T : StreamType)
  | value (v : Value)

/-- The general `operator()( T&& first, Args&&... args )` on the streams of the program.
When `T` derives from `std::ostream` the body is `print_backend( first, args... )`, which
is only well-formed with at least one value after the stream (`none` otherwise);
else the body is `print_backend( std::cout, first, args... )`. -/
def Print.operator_call (p : Print) (w : World) (first : FirstArg) (args : List Value) :
    Option World :=
  match first with
  | .stream T =>
    match args with
    | v :: vs => some { w with sink := p.print_backend T w.sink v vs }
    | [] => none
  | .value v => some { w with cout := p.print_backend StreamType.ostreamRef w.cout v args }

/-! ## Calls from several threads -/

/-- One step of an emission call, as the other threads can observe it: the construction of
the `std::lock_guard` on `mutex_`, its destruction at the end of the scope, one insertion
`os << ...` of some text, or `os << std::flush`. -/
inductive Event where
  | lock
  | unlock
  | write (s : String)
  | flush
  deriving DecidableEq

/-- The effect of one step on the stream alone. -/
def OStream.apply (os : OStream) : Event → OStream
  | .lock => os
  | .unlock => os
  | .write s => os.write s
  | .flush => os.flush

/-- The steps of `print_backend( os, first, args... )` in program order: the guard
`std::lock_guard <std::mutex> lock{ mutex_ }` comes first and is released when the function
returns, every `os << ...` in between is one insertion. -/
def Print.print_backend_events (p : Print) (T_os : StreamType) (first : Value)
    (args : List Value) : List Event :=
  [Event.lock, Event.write (render first)]
    ++ (if args.length > 0 then
          if is_null_str first || is_escape first ANSI.first then
            args.flatMap (fun arg => [Event.write (render arg), Event.write p.getSep])
          else
            args.flatMap (fun arg => [Event.write p.getSep, Event.write (render arg)])
        else [])
    ++ [Event.write p.getEnd]
    ++ (if args.length > 0 then
          if is_escape first ANSI.generic || args.any (fun arg => is_escape arg ANSI.generic)
          then [Event.write reset_ANSI] else []
        else
          if is_escape first ANSI.generic then [Event.write reset_ANSI] else [])
    ++ (if p.getFlush && !is_base_of_ostringstream T_os then [Event.flush] else [])
    ++ [Event.unlock]

/-- The steps of the no-argument overload `operator()( std::ostream& os )`: its body is
`os << getEnd(); if ( getFlush() ) os << std::flush;` and constructs no guard. -/
def Print.call_noargs_events (p : Print) : List Event :=
  [Event.write p.getEnd] ++ (if p.getFlush then [Event.flush] else [])

/-- The state shared by the threads: the stream they all write to and the thread that
currently owns the static `mutex_`, if any. -/
structure Shared where
  os : OStream
  owner : Option Nat
  deriving DecidableEq

/-- Thread `t` executes one step. Locking blocks (`none`) while the mutex is owned; an
insertion or a flush does not consult the mutex. -/
def Shared.exec (s : Shared) (t : Nat) : Event → Option Shared
  | .lock =>
    match s.owner with
    | none => some { s with owner := some t }
    | some _ => none
  | .unlock => some { s with owner := none }
  | .write x => some { s with os := s.os.write x }
  | .flush => some { s with os := s.os.flush }

/-- Several threads, each with the steps it still has to execute, and the shared state. -/
structure Machine where
  shared : Shared
  threads : List (List Event)
  deriving DecidableEq

/-- Thread `t` is scheduled for one step; `none` when it has finished or is blocked. -/
def Machine.step (m : Machine) (t : Nat) : Option Machine :=
  match m.threads.get? t with
  | some (e :: rest) =>
    match m.shared.exec t e with
    | some s => some ⟨s, m.threads.set t rest⟩
    | none => none
  | _ => none

/-- The machine follows a schedule, the list of the threads that take the next steps. -/
def Machine.run (m : Machine) : List Nat → Option Machine
  | [] => some m
  | t :: ts =>
    match m.step t with
    | some m1 => m1.run ts
    | none => none

/-! ## Auxiliary lemmas: joins, folds and the text written by `print_backend` -/

theorem join_cons (s : String) (l : List String) : String.join (s :: l) = s ++ String.join l := by
  apply String.ext
  simp [String.data_join]

theorem join_nil : String.join [] = "" := rfl

theorem intercalate_go (s : String) (l : List String) (acc : String) :
    String.intercalate.go acc s l = acc ++ String.join (l.map (fun a => s ++ a)) := by
  induction l generalizing acc with
  | nil => simp [String.intercalate.go, join_nil]
  | cons a as ih =>
    simp only [String.intercalate.go, List.map_cons, join_cons, ih, String.append_assoc]

theorem intercalate_cons (s a : String) (l : List String) :
    s.intercalate (a :: l) = a ++ String.join (l.map (fun b => s ++ b)) := by
  simp [String.intercalate, intercalate_go]

theorem renderLoop_sep (l : List Value) :
    renderLoop ", " l = String.join (l.map (fun e => ", " ++ render e)) := by
  induction l with
  | nil => simp [renderLoop, join_nil]
  | cons e es ih => simp only [renderLoop, List.map_cons, join_cons, ih, String.append_assoc]

theorem renderLoop_empty (l : List Value) :
    renderLoop "" l = ", ".intercalate (l.map render) := by
  cases l with
  | nil => simp [renderLoop, String.intercalate]
  | cons e es =>
    simp only [renderLoop, List.map_cons, intercalate_cons, renderLoop_sep, String.empty_append,
      List.map_map]
    rfl

theorem foldl_trail (sep : String) (args : List Value) (os : OStream) :
    args.foldl (fun os arg => (os.shl arg).write sep) os
      = ⟨os.str ++ String.join (args.map (fun a => render a ++ sep)), os.flushes⟩ := by
  induction args generalizing os with
  | nil => simp [join_nil]
  | cons a as ih =>
    rw [List.foldl_cons, ih]
    simp only [List.map_cons, join_cons, OStream.shl, OStream.write, String.append_assoc]

theorem foldl_lead (sep : String) (args : List Value) (os : OStream) :
    args.foldl (fun os arg => (os.write sep).shl arg) os
      = ⟨os.str ++ String.join (args.map (fun a => sep ++ render a)), os.flushes⟩ := by
  induction args generalizing os with
  | nil => simp [join_nil]
  | cons a as ih =>
    rw [List.foldl_cons, ih]
    simp only [List.map_cons, join_cons, OStream.shl, OStream.write, String.append_assoc]

theorem flush_if_str (c : Bool) (os : OStream) : (if c then os.flush else os).str = os.str := by
  cases c <;> rfl

theorem call_noargs_str (p : Print) (os : OStream) :
    (p.call_noargs os).str = os.str ++ p.getEnd := by
  unfold Print.call_noargs
  simp only [flush_if_str]
  rfl

theorem print_backend_str (p : Print) (T_os : StreamType) (os : OStream) (first : Value)
    (args : List Value) :
    (p.print_backend T_os os first args).str =
      os.str ++ render first ++
        (if is_null_str first || is_escape first ANSI.first then
          String.join (args.map (fun a => render a ++ p.sep))
        else String.join (args.map (fun a => p.sep ++ render a))) ++ p.end_ ++
        (if is_escape first ANSI.generic || args.any (fun a => is_escape a ANSI.generic) then
          reset_ANSI else "") := by
  unfold Print.print_backend
  simp only [flush_if_str]
  cases args with
  | nil =>
    simp only [List.length_nil, gt_iff_lt, lt_self_iff_false, if_false, List.map_nil, join_nil,
      ite_self, List.any_nil, Bool.or_false, String.append_empty]
    cases is_escape first ANSI.generic <;>
      simp [OStream.write, OStream.shl, Print.getEnd, String.append_assoc]
  | cons a as =>
    simp only [List.length_cons, gt_iff_lt, Nat.zero_lt_succ, if_true, foldl_trail, foldl_lead]
    cases hl : (is_null_str first || is_escape first ANSI.first) <;>
    cases hg : (is_escape first ANSI.generic || (a :: as).any (fun a => is_escape a ANSI.generic)) <;>
      simp [OStream.write, OStream.shl, Print.getEnd, Print.getSep, String.append_assoc]

theorem is_escape_generic_text (s : String) :
    is_escape (.text s) ANSI.generic = true ↔ ESC ∈ s.data := by
  simp [is_escape, find_escape]

theorem is_escape_generic_render (v : Value) (h : is_escape v ANSI.generic = true) :
    ESC ∈ (render v).data := by
  cases v <;> simp [is_escape] at h
  simpa [render, find_escape] using h

theorem is_escape_generic_iff (v : Value) :
    is_escape v ANSI.generic = true ↔ ∃ s, v = .text s ∧ ESC ∈ s.data := by
  cases v <;> simp [is_escape, find_escape]

theorem rfind_escape_at_0_iff (s : String) :
    rfind_escape_at_0 s = true ↔ s.data.head? = some ESC := by
  unfold rfind_escape_at_0
  cases s.data <;> simp

theorem is_escape_first_text (s : String) :
    is_escape (.text s) ANSI.first = true ↔ (s.data.head? = some ESC ∧ s.utf8ByteSize < 7) := by
  simp [is_escape, rfind_escape_at_0_iff]

theorem is_escape_first_render (v : Value) (h : is_escape v ANSI.first = true) :
    (render v).data.head? = some ESC ∧ (render v).utf8ByteSize < 7 := by
  cases v <;> simp [is_escape] at h
  simpa [render, rfind_escape_at_0_iff] using h

theorem is_null_str_text (s : String) : is_null_str (.text s) = true ↔ s = "" := by
  simp [is_null_str]

theorem is_null_str_render (v : Value) (h : is_null_str v = true) : render v = "" := by
  cases v <;> simp [is_null_str] at h
  simpa [render] using h

/-! ## Separator placement and the escape reset -/

/-- C1, as stated, fails when the first of several values is the empty text: with the
default configuration `print( "", "a" )` writes `a`, a space and a newline, the separator
trailing the second value, and not the joined text: a space, `a` and a newline. -/
theorem emit_joined_fails_for_empty_first :
    ESC ∉ (render (.text "")).data ∧ ESC ∉ (render (.text "a")).data ∧
    (Print.default.call OStream.empty (.text "") [.text "a"]).str = "a \n" ∧
    (Print.default.call OStream.empty (.text "") [.text "a"]).str ≠
      OStream.empty.str
        ++ Print.default.getSep.intercalate ([Value.text "", Value.text "a"].map render)
        ++ Print.default.getEnd := by
  decide

/-- C1 (amended): for every separator, terminator and non-empty value list in which no
rendered value contains the escape character and, when there are two or more values, the
first rendered value is not empty, the text written is the rendered values joined by the
separator, followed by the terminator, and nothing else. -/
theorem emit_joined_of_no_escape (p : Print) (T_os : StreamType) (os : OStream)
    (first : Value) (args : List Value)
    (hesc : ∀ v ∈ first :: args, ESC ∉ (render v).data)
    (hfirst : args = [] ∨ render first ≠ "") :
    (p.print_backend T_os os first args).str =
      os.str ++ p.getSep.intercalate ((first :: args).map render) ++ p.getEnd := by
  have hgen : ∀ v ∈ first :: args, is_escape v ANSI.generic = false := by
    intro v hv
    cases h : is_escape v ANSI.generic
    · rfl
    · exact absurd (is_escape_generic_render v h) (hesc v hv)
  have hg1 : is_escape first ANSI.generic = false := hgen first (List.mem_cons_self _ _)
  have hgs : args.any (fun a => is_escape a ANSI.generic) = false := by
    rw [List.any_eq_false]
    intro a ha
    simp [hgen a (List.mem_cons_of_mem _ ha)]
  have hf1 : is_escape first ANSI.first = false := by
    cases h : is_escape first ANSI.first
    · rfl
    · have h0 := (is_escape_first_render first h).1
      have hmem : ESC ∈ (render first).data := by
        cases hd : (render first).data with
        | nil => simp [hd] at h0
        | cons c cs => simp [hd] at h0; simp [h0]
      exact absurd hmem (hesc first (List.mem_cons_self _ _))
  rw [print_backend_str, hg1, hgs, hf1]
  rcases hfirst with hnil | hne
  · subst hnil
    simp [join_nil, String.intercalate, String.intercalate.go, Print.getEnd]
  · have hn : is_null_str first = false := by
      cases h : is_null_str first
      · rfl
      · exact absurd (is_null_str_render first h) hne
    simp [hn, intercalate_cons, List.map_map, Function.comp_def, Print.getSep, Print.getEnd,
      String.append_assoc]

/-- C1 (amended), at a concrete input: the call of the `setSep` test,
`print( "Test", "passes", "(ignore this)." )` with separator `*`. -/
theorem emit_joined_of_no_escape_witness :
    ((Print.default.setSep (.str "*")).print_backend StreamType.ostreamRef OStream.empty
        (.text "Test") [.text "passes", .text "(ignore this)."]).str =
      OStream.empty.str ++ (Print.default.setSep (.str "*")).getSep.intercalate
        ([Value.text "Test", .text "passes", .text "(ignore this)."].map render)
        ++ (Print.default.setSep (.str "*")).getEnd :=
  emit_joined_of_no_escape (Print.default.setSep (.str "*")) StreamType.ostreamRef OStream.empty
    (.text "Test") [.text "passes", .text "(ignore this)."] (by decide) (Or.inr (by decide))

/-- C2, as stated, fails: the capture-mode call with the short escape `ESC [31m` first
does not return the text without a space before the reset sequence. -/
theorem capture_colors_not_as_claimed :
    (Print.default.setEnd (.str "")).call_str mode.str
        [.text "\x1B[31m", .text "Testing colors", .text "(ignore this)."]
      ≠ "\x1B[31mTesting colors (ignore this).\x1B[0m" := by
  decide

/-- C2 (amended): with the empty terminator and the default separator, the capture-mode
call on `ESC [31m`, `Testing colors`, `(ignore this).` returns the escape, the two texts each
followed by a space, and the reset sequence: the separator also trails the last value. -/
theorem capture_colors_trailing_separator :
    (Print.default.setEnd (.str "")).call_str mode.str
        [.text "\x1B[31m", .text "Testing colors", .text "(ignore this)."]
      = "\x1B[31mTesting colors (ignore this). \x1B[0m" := by
  decide

/-- C3, as stated, fails for a value that is not a text: a container holding a coloured
text renders with the escape character inside, yet `print( c )` ends with the terminator
and writes no reset sequence. -/
theorem reset_missing_for_container_with_escape :
    ESC ∈ (render (.container [.text "\x1B[31mred"])).data ∧
    (Print.default.call OStream.empty (.container [.text "\x1B[31mred"]) []).str
      = "[\x1B[31mred]\n" ∧
    ¬ (Print.default.getEnd ++ reset_ANSI).data <:+
      (Print.default.call OStream.empty (.container [.text "\x1B[31mred"]) []).str.data := by
  decide

/-- C3 (amended): for every configuration and every call with at least one value, if some
value that is a text (first or remaining) contains the escape character anywhere, then
the reset sequence is written immediately after the terminator, as the last thing
written. -/
theorem reset_after_terminator_of_text_escape (p : Print) (T_os : StreamType) (os : OStream)
    (first : Value) (args : List Value)
    (h : ∃ s, Value.text s ∈ first :: args ∧ ESC ∈ s.data) :
    (p.print_backend T_os os first args).str =
      os.str ++ render first ++
        (if is_null_str first || is_escape first ANSI.first then
          String.join (args.map (fun a => render a ++ p.getSep))
        else String.join (args.map (fun a => p.getSep ++ render a)))
        ++ p.getEnd ++ reset_ANSI := by
  obtain ⟨s, hmem, hs⟩ := h
  have hany : (is_escape first ANSI.generic ||
      args.any (fun a => is_escape a ANSI.generic)) = true := by
    rcases List.mem_cons.mp hmem with hf | ha
    · rw [← hf, (is_escape_generic_text s).mpr hs]
      rfl
    · rw [Bool.or_eq_true]
      right
      rw [List.any_eq_true]
      exact ⟨.text s, ha, (is_escape_generic_text s).mpr hs⟩
  rw [print_backend_str, hany]
  rfl

/-- C3 (amended), at a concrete input: the test call with values `Testing`,
`ESC [31mcolors`, `(ignore this).` and the empty terminator. -/
theorem reset_after_terminator_of_text_escape_witness :
    ((Print.default.setEnd (.str "")).print_backend StreamType.ostringstreamRef OStream.empty
        (.text "Testing") [.text "\x1B[31mcolors", .text "(ignore this)."]).str
      = "Testing \x1B[31mcolors (ignore this).\x1B[0m" :=
  (reset_after_terminator_of_text_escape (Print.default.setEnd (.str ""))
    StreamType.ostringstreamRef OStream.empty
    (.text "Testing") [.text "\x1B[31mcolors", .text "(ignore this)."]
    ⟨"\x1B[31mcolors", by simp, by decide⟩).trans (by decide)

/-- C4: when the first value is a text that is empty, or that starts with the escape
character and has length under 7, the text written through the terminator is the first
value, then every remaining value followed by the separator (so a separator stands right
before the terminator as soon as there are two values), then the terminator; only the
reset sequence may follow. -/
theorem trailing_separators_of_lead_control (p : Print) (T_os : StreamType) (os : OStream)
    (s : String) (args : List Value)
    (hlead : s = "" ∨ (s.data.head? = some ESC ∧ s.utf8ByteSize < 7)) :
    ∃ tail, (tail = "" ∨ tail = reset_ANSI) ∧
      (p.print_backend T_os os (.text s) args).str =
        os.str ++ render (.text s) ++ String.join (args.map (fun a => render a ++ p.getSep))
          ++ p.getEnd ++ tail := by
  have hl : (is_null_str (.text s) || is_escape (.text s) ANSI.first) = true := by
    rcases hlead with h0 | h1
    · rw [(is_null_str_text s).mpr h0]
      rfl
    · rw [(is_escape_first_text s).mpr h1, Bool.or_true]
  refine ⟨if is_escape (.text s) ANSI.generic || args.any (fun a => is_escape a ANSI.generic)
    then reset_ANSI else "", ?_, ?_⟩
  · cases is_escape (.text s) ANSI.generic || args.any (fun a => is_escape a ANSI.generic) <;>
      simp
  · rw [print_backend_str, hl]
    rfl

/-- C4, at a concrete input: the test call with the short escape `ESC [31m` first. -/
theorem trailing_separators_of_lead_control_witness :
    ∃ tail, (tail = "" ∨ tail = reset_ANSI) ∧
      ((Print.default.setEnd (.str "")).print_backend StreamType.ostringstreamRef OStream.empty
          (.text "\x1B[31m") [.text "Testing empty char (ignore this)."]).str =
        OStream.empty.str ++ render (.text "\x1B[31m")
          ++ String.join ([Value.text "Testing empty char (ignore this)."].map
              (fun a => render a ++ (Print.default.setEnd (.str "")).getSep))
          ++ (Print.default.setEnd (.str "")).getEnd ++ tail :=
  trailing_separators_of_lead_control (Print.default.setEnd (.str ""))
    StreamType.ostringstreamRef OStream.empty "\x1B[31m"
    [.text "Testing empty char (ignore this)."] (Or.inr (by decide))

/-- C5: when the rendered first value is non-empty and is not a short leading escape, the
text written through the terminator is the first value, then every remaining value
preceded by the separator, then the terminator; only the reset sequence may follow. -/
theorem leading_separators_of_ordinary_first (p : Print) (T_os : StreamType) (os : OStream)
    (first : Value) (args : List Value)
    (hne : render first ≠ "")
    (hshort : ¬ ((render first).data.head? = some ESC ∧ (render first).utf8ByteSize < 7)) :
    ∃ tail, (tail = "" ∨ tail = reset_ANSI) ∧
      (p.print_backend T_os os first args).str =
        os.str ++ render first ++ String.join (args.map (fun a => p.getSep ++ render a))
          ++ p.getEnd ++ tail := by
  have hn : is_null_str first = false := by
    cases h : is_null_str first
    · rfl
    · exact absurd (is_null_str_render first h) hne
  have hf : is_escape first ANSI.first = false := by
    cases h : is_escape first ANSI.first
    · rfl
    · exact absurd (is_escape_first_render first h) hshort
  refine ⟨if is_escape first ANSI.generic || args.any (fun a => is_escape a ANSI.generic)
    then reset_ANSI else "", ?_, ?_⟩
  · cases is_escape first ANSI.generic || args.any (fun a => is_escape a ANSI.generic) <;>
      simp
  · rw [print_backend_str, hn, hf]
    rfl

/-- C5, at a concrete input: the system-test call `print( "\033[31mAnother", "red string!" )`,
whose first value starts with the escape character but has length 12. -/
theorem leading_separators_of_ordinary_first_witness :
    ∃ tail, (tail = "" ∨ tail = reset_ANSI) ∧
      (Print.default.print_backend StreamType.ostreamRef OStream.empty
          (.text "\x1B[31mAnother") [.text "red string!"]).str =
        OStream.empty.str ++ render (.text "\x1B[31mAnother")
          ++ String.join ([Value.text "red string!"].map
              (fun a => Print.default.getSep ++ render a))
          ++ Print.default.getEnd ++ tail :=
  leading_separators_of_ordinary_first Print.default StreamType.ostreamRef OStream.empty
    (.text "\x1B[31mAnother") [.text "red string!"] (by decide) (by decide)

/-! ## Call shapes -/

/-- C6: for every terminator, separator and flush setting, the zero-value call appends
exactly the terminator to the text of the sink. -/
theorem zero_value_call_writes_terminator (p : Print) (os : OStream) :
    (p.call_noargs os).str = os.str ++ p.getEnd :=
  call_noargs_str p os

/-- C7: for every configuration the capture-mode call with zero values returns the empty
text, whereas the zero-value call on an empty sink leaves the terminator in it. -/
theorem capture_zero_values_empty (p : Print) :
    p.call_str mode.str [] = "" ∧ (p.call_noargs OStream.empty).str = p.getEnd := by
  refine ⟨rfl, ?_⟩
  rw [call_noargs_str]
  exact String.empty_append _

/-- C8: for every configuration, every stream type and every non-empty value list, the
capture-mode call returns exactly the text that the call with an explicit, initially
empty sink leaves in that sink. -/
theorem capture_eq_sink_text (p : Print) (T : StreamType) (v : Value) (vs : List Value) :
    p.call_str mode.str (v :: vs) = (p.call_os T OStream.empty v vs).str := by
  simp only [Print.call_str, Print.call_os, print_backend_str]

/-- C9: a single-value call writes the rendered value and the terminator, followed by the
reset sequence exactly when the value is a text containing the escape character; the
separator is never written. -/
theorem single_value_call (p : Print) (T_os : StreamType) (os : OStream) (v : Value) :
    ((∃ s, v = .text s ∧ ESC ∈ s.data) →
      (p.print_backend T_os os v []).str = os.str ++ render v ++ p.getEnd ++ reset_ANSI) ∧
    (¬ (∃ s, v = .text s ∧ ESC ∈ s.data) →
      (p.print_backend T_os os v []).str = os.str ++ render v ++ p.getEnd) := by
  constructor
  · intro h
    rw [print_backend_str, List.any_nil, Bool.or_false, (is_escape_generic_iff v).mpr h]
    simp [join_nil, Print.getEnd]
  · intro h
    have hg : is_escape v ANSI.generic = false := by
      cases hc : is_escape v ANSI.generic
      · rfl
      · exact absurd ((is_escape_generic_iff v).mp hc) h
    rw [print_backend_str, List.any_nil, Bool.or_false, hg]
    simp [join_nil, Print.getEnd]

/-! ## Rendering -/

/-- C10: a container renders as an opening bracket, its rendered elements in traversal
order joined by a comma and a space, and a closing bracket; in particular the empty
container renders as `[]`, a one-element container as the bracketed element, and the
containers of the tests as `[1, 2, 3]` and `[[1, 3], [2, 1]]`. -/
theorem render_container (elems : List Value) (e0 : Value) :
    render (.container elems) = "[" ++ ", ".intercalate (elems.map render) ++ "]" ∧
    render (.container []) = "[]" ∧
    render (.container [e0]) = "[" ++ render e0 ++ "]" ∧
    render (.container [.int 1, .int 2, .int 3]) = "[1, 2, 3]" ∧
    render (.container [.container [.int 1, .int 3], .container [.int 2, .int 1]])
      = "[[1, 3], [2, 1]]" := by
  refine ⟨?_, by decide, ?_, by decide, by decide⟩
  · rw [render, renderLoop_empty]
  · simp [render, renderLoop]

/-! ## Auxiliary lemmas: streams of the program and replay of the steps -/

theorem print_backend_str_from_empty (p : Print) (T_os T : StreamType) (os : OStream)
    (first : Value) (args : List Value) :
    (p.print_backend T_os os first args).str =
      os.str ++ (p.print_backend T OStream.empty first args).str := by
  rw [print_backend_str, print_backend_str]
  simp [OStream.empty, String.append_assoc]

theorem foldl_apply_append (es fs : List Event) (os : OStream) :
    (es ++ fs).foldl OStream.apply os = fs.foldl OStream.apply (es.foldl OStream.apply os) :=
  List.foldl_append _ _ _ _

theorem foldl_apply_trail (sep : String) (args : List Value) (os : OStream) :
    (args.flatMap (fun arg => [Event.write (render arg), Event.write sep])).foldl
        OStream.apply os
      = args.foldl (fun os arg => (os.shl arg).write sep) os := by
  induction args generalizing os with
  | nil => rfl
  | cons a as ih =>
    simp only [List.flatMap_cons, List.foldl_append, List.foldl_cons, List.foldl_nil, ih]
    rfl

theorem foldl_apply_lead (sep : String) (args : List Value) (os : OStream) :
    (args.flatMap (fun arg => [Event.write sep, Event.write (render arg)])).foldl
        OStream.apply os
      = args.foldl (fun os arg => (os.write sep).shl arg) os := by
  induction args generalizing os with
  | nil => rfl
  | cons a as ih =>
    simp only [List.flatMap_cons, List.foldl_append, List.foldl_cons, List.foldl_nil, ih]
    rfl

theorem print_backend_events_replay (p : Print) (T_os : StreamType) (os : OStream)
    (first : Value) (args : List Value) :
    (p.print_backend_events T_os first args).foldl OStream.apply os
      = p.print_backend T_os os first args := by
  unfold Print.print_backend_events Print.print_backend
  simp only [List.foldl_append, List.foldl_cons, List.foldl_nil, OStream.apply]
  cases args with
  | nil =>
    simp only [List.length_nil, gt_iff_lt, lt_self_iff_false, if_false, List.foldl_nil]
    cases is_escape first ANSI.generic <;>
      cases (p.getFlush && !is_base_of_ostringstream T_os) <;> rfl
  | cons a as =>
    simp only [List.length_cons, gt_iff_lt, Nat.zero_lt_succ, if_true]
    cases (is_null_str first || is_escape first ANSI.first) <;>
    cases (is_escape first ANSI.generic ||
        (a :: as).any (fun arg => is_escape arg ANSI.generic)) <;>
    cases (p.getFlush && !is_base_of_ostringstream T_os) <;>
      simp [foldl_apply_trail, foldl_apply_lead, OStream.apply, OStream.shl]

theorem call_noargs_events_replay (p : Print) (os : OStream) :
    p.call_noargs_events.foldl OStream.apply os = p.call_noargs os := by
  unfold Print.call_noargs_events Print.call_noargs
  cases p.getFlush <;> rfl

theorem render_array_eq_container (elems : List Value) :
    render (.array elems) = render (.container elems) := by
  cases elems with
  | nil => simp [render, renderLoop]
  | cons e es => simp [render]


theorem join_append (l1 l2 : List String) :
    String.join (l1 ++ l2) = String.join l1 ++ String.join l2 := by
  induction l1 with
  | nil => simp [join_nil]
  | cons s l ih => rw [List.cons_append, join_cons, join_cons, ih, String.append_assoc]

/-! ## Rendering rules -/

/-- C11: the rendering of a container does not depend on the configuration: whatever the
separator, terminator and flush setting, the single-value call on a container writes the
bracketed elements joined by a comma and a space, then the terminator, and two printers
write the same text before their terminators; with separator `*` the call on `[1, 2, 3]`
writes `[1, 2, 3]` and the terminator. -/
theorem container_render_ignores_configuration (p q : Print) (T_os : StreamType)
    (os : OStream) (elems : List Value) :
    (p.print_backend T_os os (.container elems) []).str
      = os.str ++ "[" ++ ", ".intercalate (elems.map render) ++ "]" ++ p.getEnd ∧
    (q.print_backend T_os os (.container elems) []).str
      = os.str ++ "[" ++ ", ".intercalate (elems.map render) ++ "]" ++ q.getEnd ∧
    ((Print.default.setSep (.str "*")).call OStream.empty
        (.container [.int 1, .int 2, .int 3]) []).str = "[1, 2, 3]\n" := by
  have key : ∀ r : Print, (r.print_backend T_os os (.container elems) []).str
      = os.str ++ "[" ++ ", ".intercalate (elems.map render) ++ "]" ++ r.getEnd := by
    intro r
    rw [print_backend_str]
    simp [is_escape, is_null_str, join_nil, render, renderLoop_empty, Print.getEnd,
      String.append_assoc]
  exact ⟨key p, key q, by decide⟩

/-- C12: a pair renders as an opening bracket, its first component, a comma and a space,
its second component and a closing bracket; the map of the tests, a container of three
pairs, renders as `[[1, 1], [2, 2], [3, 3]]`. -/
theorem render_pair (a b : Value) :
    render (.pair a b) = "[" ++ render a ++ ", " ++ render b ++ "]" ∧
    render (.container [.pair (.int 1) (.int 1), .pair (.int 2) (.int 2),
        .pair (.int 3) (.int 3)]) = "[[1, 1], [2, 2], [3, 3]]" := by
  refine ⟨?_, by decide⟩
  rw [render]

/-- C13: a complex number with integral parts renders as its real part, a plus sign, its
imaginary part and the letter `j`, without spaces and without a special case for a
negative imaginary part: `1+6j` and `1+-6j`. -/
theorem render_complex (re im : Int) :
    render (.complex re im) = render (.int re) ++ "+" ++ render (.int im) ++ "j" ∧
    render (.complex 1 6) = "1+6j" ∧
    render (.complex 1 (-6)) = "1+-6j" := by
  refine ⟨?_, by decide, by decide⟩
  simp only [render]

/-- C14: a C array of non-character elements renders exactly as a container holding the
same elements in the same order, that is as the bracketed elements joined by a comma and
a space; the `int` array of the tests renders as `[1, 2, 3]`. -/
theorem render_array (elems : List Value) :
    render (.array elems) = render (.container elems) ∧
    render (.array elems) = "[" ++ ", ".intercalate (elems.map render) ++ "]" ∧
    render (.array [.int 1, .int 2, .int 3]) = "[1, 2, 3]" := by
  refine ⟨render_array_eq_container elems, ?_, by decide⟩
  rw [render_array_eq_container, render, renderLoop_empty]

/-- C15: a text is rendered as exactly its own characters, never as a bracketed list of
them, so the single-value call on a text writes the text and the terminator, followed by
the reset sequence exactly if the text contains the escape character. -/
theorem text_rendered_natively (p : Print) (T_os : StreamType) (os : OStream) (t : String) :
    render (.text t) = t ∧
    (p.print_backend T_os os (.text t) []).str
      = os.str ++ t ++ p.getEnd ++ (if ESC ∈ t.data then reset_ANSI else "") ∧
    render (.text "ab") ≠ render (.container [.char 'a', .char 'b']) := by
  refine ⟨by rw [render], ?_, by decide⟩
  rw [print_backend_str]
  by_cases h : ESC ∈ t.data
  · simp [(is_escape_generic_text t).mpr h, h, join_nil, render, Print.getEnd]
  · have hg : is_escape (.text t) ANSI.generic = false := by
      cases hc : is_escape (.text t) ANSI.generic
      · rfl
      · exact absurd ((is_escape_generic_text t).mp hc) h
    simp [hg, h, join_nil, render, Print.getEnd]

/-- C16: a `nullptr` among the remaining values renders as the text `nullptr`, takes its
separator like any other value, in the leading as in the trailing placement, and does not
count for the reset sequence, which depends on the other values only; with the empty
terminator the capture-mode call on `Hey`, `nullptr`, `nullptr` returns
`Hey nullptr nullptr`. -/
theorem nullptr_as_remaining_value (p : Print) (T_os : StreamType) (os : OStream)
    (first : Value) (xs ys : List Value) :
    render .nullptr = "nullptr" ∧
    (p.print_backend T_os os first (xs ++ .nullptr :: ys)).str =
      os.str ++ render first ++
        (if is_null_str first || is_escape first ANSI.first then
          String.join (xs.map (fun a => render a ++ p.getSep)) ++ ("nullptr" ++ p.getSep)
            ++ String.join (ys.map (fun a => render a ++ p.getSep))
        else
          String.join (xs.map (fun a => p.getSep ++ render a)) ++ (p.getSep ++ "nullptr")
            ++ String.join (ys.map (fun a => p.getSep ++ render a)))
        ++ p.getEnd ++
        (if is_escape first ANSI.generic || (xs ++ ys).any (fun a => is_escape a ANSI.generic)
          then reset_ANSI else "") ∧
    (Print.default.setEnd (.str "")).call_str mode.str [.text "Hey", .nullptr, .nullptr]
      = "Hey nullptr nullptr" := by
  refine ⟨by rw [render], ?_, by decide⟩
  have hany : (xs ++ Value.nullptr :: ys).any (fun a => is_escape a ANSI.generic)
      = (xs ++ ys).any (fun a => is_escape a ANSI.generic) := by
    simp [List.any_append, is_escape]
  rw [print_backend_str, hany]
  cases (is_null_str first || is_escape first ANSI.first) <;>
    simp [join_append, join_cons, render, Print.getSep, Print.getEnd, String.append_assoc]

/-! ## Configuration -/

/-- C17: setter and getter round trip: after `setSep( x )` the getter `getSep` returns `x`,
after `setEnd( x )` the getter `getEnd` returns `x`, after `setFlush( b )` the getter
`getFlush` returns `b`; a setter given a single character stores the one-character text,
so `setEnd( '.' )` makes `getEnd` return `.`; each setter leaves the two other members
as they were. -/
theorem setter_getter_round_trip (p : Print) (x : String) (b : Bool) (c : Char) :
    (p.setSep (.str x)).getSep = x ∧
    (p.setEnd (.str x)).getEnd = x ∧
    (p.setFlush b).getFlush = b ∧
    (p.setSep (.chr c)).getSep = String.singleton c ∧
    (p.setEnd (.chr c)).getEnd = String.singleton c ∧
    (Print.default.setEnd (.chr '.')).getEnd = "." ∧
    ((p.setSep (.str x)).getEnd = p.getEnd ∧ (p.setSep (.str x)).getFlush = p.getFlush) ∧
    ((p.setEnd (.str x)).getSep = p.getSep ∧ (p.setEnd (.str x)).getFlush = p.getFlush) ∧
    ((p.setFlush b).getSep = p.getSep ∧ (p.setFlush b).getEnd = p.getEnd) := by
  refine ⟨rfl, rfl, rfl, rfl, rfl, by decide, ⟨rfl, rfl⟩, ⟨rfl, rfl⟩, ⟨rfl, rfl⟩⟩

/-- C18: a freshly constructed printer has the separator of one space, the terminator of
one newline and the flush policy off. -/
theorem default_configuration :
    Print.default.getSep = " " ∧ Print.default.getEnd = "\n" ∧
    Print.default.getFlush = false := by
  decide

/-! ## Sink selection -/

/-- C19: with a stream as first argument and at least one value, the call appends to that
stream exactly the text that the same values would add to `std::cout`, and leaves
`std::cout` as it was; with an ordinary value as first argument the text goes to
`std::cout`, the caller's stream is untouched, and the text starts with the rendering of
that first argument. -/
theorem sink_selection (p : Print) (w : World) (T : StreamType) (v : Value)
    (vs : List Value) :
    (∃ w1, p.operator_call w (.stream T) (v :: vs) = some w1 ∧ w1.cout = w.cout ∧
      w1.sink.str = w.sink.str ++ (p.call OStream.empty v vs).str) ∧
    (∃ w2, p.operator_call w (.value v) vs = some w2 ∧ w2.sink = w.sink ∧
      w2.cout.str = w.cout.str ++ (p.call OStream.empty v vs).str) ∧
    (∃ rest, (p.call OStream.empty v vs).str = render v ++ rest) := by
  refine ⟨⟨_, rfl, rfl, ?_⟩, ⟨_, rfl, rfl, ?_⟩, ?_⟩
  · exact print_backend_str_from_empty p T StreamType.ostreamRef w.sink v vs
  · exact print_backend_str_from_empty p StreamType.ostreamRef StreamType.ostreamRef w.cout v vs
  · unfold Print.call
    rw [print_backend_str]
    simp only [OStream.empty, String.empty_append, String.append_assoc]
    exact ⟨_, rfl⟩

/-! ## Calls from several threads -/

/-- C20, at the failing input: thread 0 runs `print( "a", "b" )` and thread 1 the
zero-value call `print()` on the same stream. The zero-value call takes no lock, so its
terminator can be inserted between two insertions of thread 0: the stream ends up with
`a`, newline, space, `b`, newline, in which the text `a b` plus newline of thread 0 does
not occur as one block. A second call through `print_backend` scheduled at the same point
is blocked on the mutex instead. -/
theorem zero_value_call_splits_block :
    (Print.default.call OStream.empty (.text "a") [.text "b"]).str = "a b\n" ∧
    (Print.default.call_noargs OStream.empty).str = "\n" ∧
    Event.lock ∉ Print.default.call_noargs_events ∧
    Machine.run
        ⟨⟨OStream.empty, none⟩,
          [Print.default.print_backend_events StreamType.ostreamRef (.text "a") [.text "b"],
            Print.default.call_noargs_events]⟩
        [0, 0, 1, 0, 0, 0, 0]
      = some ⟨⟨⟨"a\n b\n", 0⟩, none⟩, [[], []]⟩ ∧
    ¬ "a b\n".data <:+: "a\n b\n".data ∧
    Machine.run
        ⟨⟨OStream.empty, none⟩,
          [Print.default.print_backend_events StreamType.ostreamRef (.text "a") [.text "b"],
            Print.default.print_backend_events StreamType.ostreamRef (.text "c") []]⟩
        [0, 0, 1]
      = none := by
  decide

/-! ## Auxiliary lemmas: flush count and lengths -/

theorem print_backend_flushes (p : Print) (T_os : StreamType) (os : OStream) (first : Value)
    (args : List Value) :
    (p.print_backend T_os os first args).flushes =
      os.flushes + (if p.getFlush && !is_base_of_ostringstream T_os then 1 else 0) := by
  unfold Print.print_backend
  simp only [foldl_trail, foldl_lead]
  cases (p.getFlush && !is_base_of_ostringstream T_os) <;>
    simp only [OStream.flush, OStream.write, OStream.shl, apply_ite OStream.flushes, ite_self,
      if_true, if_false, Bool.false_eq_true, Nat.add_zero]

theorem utf8ByteSize_append (a b : String) :
    (a ++ b).utf8ByteSize = a.utf8ByteSize + b.utf8ByteSize := by
  cases a
  cases b
  simp only [String.utf8ByteSize_mk]
  exact String.utf8Len_append _ _

theorem measure_join (μ : String → Nat) (hadd : ∀ a b, μ (a ++ b) = μ a + μ b)
    (hzero : μ "" = 0) (l : List String) : μ (String.join l) = (l.map μ).sum := by
  induction l with
  | nil => simpa [join_nil] using hzero
  | cons s l ih => rw [join_cons, hadd, ih, List.map_cons, List.sum_cons]

theorem sum_map_add_const {α : Type} (f : α → Nat) (c : Nat) (l : List α) :
    (l.map (fun a => f a + c)).sum = (l.map f).sum + l.length * c := by
  induction l with
  | nil => simp
  | cons a l ih =>
    simp only [List.map_cons, List.sum_cons, List.length_cons, ih, Nat.succ_mul]
    omega

theorem print_backend_measure (μ : String → Nat) (hadd : ∀ a b, μ (a ++ b) = μ a + μ b)
    (hzero : μ "" = 0) (p : Print) (T_os : StreamType) (os : OStream) (first : Value)
    (args : List Value) :
    μ (p.print_backend T_os os first args).str =
      μ os.str + ((first :: args).map (fun v => μ (render v))).sum
        + ((first :: args).length - 1) * μ p.getSep + μ p.getEnd
        + (if (first :: args).any (fun v => is_escape v ANSI.generic)
            then μ reset_ANSI else 0) := by
  have htrail : μ (String.join (args.map (fun a => render a ++ p.sep)))
      = (args.map (fun v => μ (render v))).sum + args.length * μ p.sep := by
    rw [measure_join μ hadd hzero, List.map_map, ← sum_map_add_const]
    simp [Function.comp_def, hadd]
  have hlead : μ (String.join (args.map (fun a => p.sep ++ render a)))
      = (args.map (fun v => μ (render v))).sum + args.length * μ p.sep := by
    rw [measure_join μ hadd hzero, List.map_map, ← sum_map_add_const]
    simp [Function.comp_def, hadd, Nat.add_comm]
  rw [print_backend_str]
  simp only [hadd, apply_ite μ, htrail, hlead, ite_self, hzero, List.map_cons, List.sum_cons,
    List.length_cons, Nat.add_sub_cancel, List.any_cons, Print.getSep, Print.getEnd]
  omega

/-! ## Flushing -/

/-- C21, at the failing input: with the flush policy on, the capture-mode call
`print( ptc::mode::str, "Test" )` passes its local `std::ostringstream` as an lvalue, so
`T_os` is a reference type, the trait `std::is_base_of_v` is false and the buffer is
flushed once; the same happens with a `std::ostringstream` lvalue as explicit sink. Only a
temporary `std::ostringstream` is spared, and with the policy off nothing is flushed. -/
theorem capture_call_flushes_buffer :
    is_base_of_ostringstream StreamType.ostringstreamRef = false ∧
    (Print.default.setFlush true).call_str mode.str [.text "Test"]
      = ((Print.default.setFlush true).print_backend StreamType.ostringstreamRef
          OStream.empty (.text "Test") []).str ∧
    ((Print.default.setFlush true).print_backend StreamType.ostringstreamRef
        OStream.empty (.text "Test") []).flushes = 1 ∧
    ((Print.default.setFlush true).call_os ⟨.ostringstream, true⟩
        OStream.empty (.text "Test") []).flushes = 1 ∧
    ((Print.default.setFlush true).call_os ⟨.ostringstream, false⟩
        OStream.empty (.text "Test") []).flushes = 0 ∧
    ((Print.default.setFlush false).print_backend StreamType.ostringstreamRef
        OStream.empty (.text "Test") []).flushes = 0 := by
  decide

/-- C23: the flush policy does not change the text: for every configuration, stream and
value list, the call with the policy on writes the same text as the call with the policy
off, in the calls with values, in the zero-value call and in capture mode. -/
theorem flush_policy_keeps_text (p : Print) (T_os : StreamType) (os : OStream)
    (first : Value) (args : List Value) :
    ((p.setFlush true).print_backend T_os os first args).str
      = ((p.setFlush false).print_backend T_os os first args).str ∧
    ((p.setFlush true).call_noargs os).str = ((p.setFlush false).call_noargs os).str ∧
    (p.setFlush true).call_str mode.str (first :: args)
      = (p.setFlush false).call_str mode.str (first :: args) ∧
    (p.setFlush true).call_str mode.str [] = (p.setFlush false).call_str mode.str [] := by
  refine ⟨?_, ?_, ?_, rfl⟩
  · rw [print_backend_str, print_backend_str]
    rfl
  · rw [call_noargs_str, call_noargs_str]
    rfl
  · simp only [Print.call_str, print_backend_str]
    rfl

/-! ## The boundary of the short leading escape -/

/-- C22: a first text that starts with the escape character counts as a short leading
escape exactly when its length is under 7: then the separator follows each remaining
value, whereas from length 7 on the separator precedes each remaining value; in both cases
the reset sequence follows the terminator. -/
theorem lead_control_boundary (p : Print) (T_os : StreamType) (os : OStream) (s : String)
    (args : List Value) (hstart : s.data.head? = some ESC) :
    (is_escape (.text s) ANSI.first = true ↔ s.utf8ByteSize < 7) ∧
    (s.utf8ByteSize < 7 →
      (p.print_backend T_os os (.text s) args).str =
        os.str ++ s ++ String.join (args.map (fun a => render a ++ p.getSep))
          ++ p.getEnd ++ reset_ANSI) ∧
    (7 ≤ s.utf8ByteSize →
      (p.print_backend T_os os (.text s) args).str =
        os.str ++ s ++ String.join (args.map (fun a => p.getSep ++ render a))
          ++ p.getEnd ++ reset_ANSI) := by
  have hmem : ESC ∈ s.data := by
    cases hd : s.data with
    | nil => simp [hd] at hstart
    | cons c cs => simp [hd] at hstart; simp [hstart]
  have hgen : is_escape (.text s) ANSI.generic = true := (is_escape_generic_text s).mpr hmem
  have hnull : is_null_str (.text s) = false := by
    cases h : is_null_str (.text s)
    · rfl
    · have h0 := (is_null_str_text s).mp h
      subst h0
      simp at hstart
  have hiff : is_escape (.text s) ANSI.first = true ↔ s.utf8ByteSize < 7 := by
    rw [is_escape_first_text]
    exact ⟨fun h => h.2, fun h => ⟨hstart, h⟩⟩
  refine ⟨hiff, ?_, ?_⟩
  · intro hlt
    rw [print_backend_str, hgen, hiff.mpr hlt]
    simp [render, Print.getSep, Print.getEnd]
  · intro hge
    have hf : is_escape (.text s) ANSI.first = false := by
      cases h : is_escape (.text s) ANSI.first
      · rfl
      · exact absurd (hiff.mp h) (by omega)
    rw [print_backend_str, hgen, hf, hnull]
    simp [render, Print.getSep, Print.getEnd]

/-- C22, at concrete inputs: a first text of length 6 (`ESC [1;3m`) puts the separator
after the remaining value, the first text of length 12 of the system test
(`ESC [31mAnother`) puts it before. -/
theorem lead_control_boundary_witness :
    (Print.default.call OStream.empty (.text "\x1B[1;3m") [.text "x"]).str
      = "\x1B[1;3mx \n\x1B[0m" ∧
    (Print.default.call OStream.empty (.text "\x1B[31mAnother") [.text "red string!"]).str
      = "\x1B[31mAnother red string!\n\x1B[0m" :=
  ⟨((lead_control_boundary Print.default StreamType.ostreamRef OStream.empty "\x1B[1;3m"
      [.text "x"] (by decide)).2.1 (by decide)).trans (by decide),
   ((lead_control_boundary Print.default StreamType.ostreamRef OStream.empty "\x1B[31mAnother"
      [.text "red string!"] (by decide)).2.2 (by decide)).trans (by decide)⟩

/-! ## Lengths, the scan for escapes and injectivity -/

/-- C24: for every configuration and every call with `n >= 1` values, the length of the
text after the call is the length before it, plus the lengths of the rendered values,
plus `n - 1` times the length of the separator, plus the length of the terminator, plus 4
exactly when a value triggers the reset sequence; the count of separators is the same in
the leading and in the trailing placement. It holds for the length in bytes and for the
length in characters. -/
theorem written_length (p : Print) (T_os : StreamType) (os : OStream) (first : Value)
    (args : List Value) :
    (p.print_backend T_os os first args).str.utf8ByteSize =
      os.str.utf8ByteSize + ((first :: args).map (fun v => (render v).utf8ByteSize)).sum
        + ((first :: args).length - 1) * p.getSep.utf8ByteSize + p.getEnd.utf8ByteSize
        + (if (first :: args).any (fun v => is_escape v ANSI.generic) then 4 else 0) ∧
    (p.print_backend T_os os first args).str.length =
      os.str.length + ((first :: args).map (fun v => (render v).length)).sum
        + ((first :: args).length - 1) * p.getSep.length + p.getEnd.length
        + (if (first :: args).any (fun v => is_escape v ANSI.generic) then 4 else 0) := by
  constructor
  · exact print_backend_measure String.utf8ByteSize utf8ByteSize_append rfl p T_os os first args
  · exact print_backend_measure String.length String.length_append rfl p T_os os first args

/-- C25: only the values are scanned for escapes: when no rendered value contains the
escape character, the written text is the values with their separators followed by the
terminator and nothing after it, whatever the separator and the terminator contain. -/
theorem no_reset_without_value_escape (p : Print) (T_os : StreamType) (os : OStream)
    (first : Value) (args : List Value)
    (hesc : ∀ v ∈ first :: args, ESC ∉ (render v).data) :
    (p.print_backend T_os os first args).str =
      os.str ++ render first ++
        (if is_null_str first then String.join (args.map (fun a => render a ++ p.getSep))
          else String.join (args.map (fun a => p.getSep ++ render a)))
        ++ p.getEnd := by
  have hgen : ∀ v ∈ first :: args, is_escape v ANSI.generic = false := by
    intro v hv
    cases h : is_escape v ANSI.generic
    · rfl
    · exact absurd (is_escape_generic_render v h) (hesc v hv)
  have hg1 : is_escape first ANSI.generic = false := hgen first (List.mem_cons_self _ _)
  have hgs : args.any (fun a => is_escape a ANSI.generic) = false := by
    rw [List.any_eq_false]
    intro a ha
    simp [hgen a (List.mem_cons_of_mem _ ha)]
  have hf1 : is_escape first ANSI.first = false := by
    cases h : is_escape first ANSI.first
    · rfl
    · have h0 := (is_escape_first_render first h).1
      have hmem : ESC ∈ (render first).data := by
        cases hd : (render first).data with
        | nil => simp [hd] at h0
        | cons c cs => simp [hd] at h0; simp [h0]
      exact absurd hmem (hesc first (List.mem_cons_self _ _))
  rw [print_backend_str, hg1, hgs, hf1]
  simp [Print.getSep, Print.getEnd]

/-- C25, at a concrete input: separator `ESC [1m` and terminator `ESC [2m` plus newline,
values `a` and `b`: the text ends with the terminator, no reset sequence follows. -/
theorem no_reset_without_value_escape_witness :
    (((Print.default.setSep (.str "\x1B[1m")).setEnd (.str "\x1B[2m\n")).print_backend
        StreamType.ostreamRef OStream.empty (.text "a") [.text "b"]).str
      = "a\x1B[1mb\x1B[2m\n" :=
  (no_reset_without_value_escape
    ((Print.default.setSep (.str "\x1B[1m")).setEnd (.str "\x1B[2m\n"))
    StreamType.ostreamRef OStream.empty (.text "a") [.text "b"] (by decide)).trans (by decide)

/-- C26: rendering is not injective: the one-element container of the text `a, b` and the
two-element container of the texts `a` and `b` are distinct values that both render as
`[a, b]`, and the pair of `1` and `2` renders as the container of `1` and `2`, namely as
`[1, 2]`. -/
theorem render_not_injective :
    Value.container [.text "a, b"] ≠ Value.container [.text "a", .text "b"] ∧
    render (.container [.text "a, b"]) = "[a, b]" ∧
    render (.container [.text "a", .text "b"]) = "[a, b]" ∧
    Value.pair (.int 1) (.int 2) ≠ Value.container [.int 1, .int 2] ∧
    render (.pair (.int 1) (.int 2)) = "[1, 2]" ∧
    render (.container [.int 1, .int 2]) = "[1, 2]" := by
  refine ⟨by simp, by decide, by decide, by simp, by decide, by decide⟩

end ptc
